import Mathlib

/-!
Shallow embedding of the AI-Engineering-Coach core logic
(src/src/App.tsx and src/src/services/geminiService.ts):
the assessment submission / progression update (handleSubmitTest),
the contest join check (handleJoinContest) and the contest
anti-cheating monitor (handleVisibilityChange / handleBlur /
handleSubmitContest).

JavaScript numbers are modelled as extended rationals (`JsNum`):
a rational value, NaN, or a signed infinity.  All arithmetic the
embedded code performs is exact at these magnitudes, so rationals
are faithful; NaN/Infinity propagation follows the JS semantics of
the operators actually used (`+`, `*`, `/`, `Math.round`,
`Math.max`, `===`).
-/

/-- Exact rational addition, written with `Rat.divInt` so that it reduces
inside the kernel (the library's `Rat.add` is irreducible). -/
def qAdd (a b : ℚ) : ℚ := Rat.divInt (a.num * b.den + b.num * a.den) (a.den * b.den)

/-- Exact rational subtraction via `Rat.divInt`. -/
def qSub (a b : ℚ) : ℚ := Rat.divInt (a.num * b.den - b.num * a.den) (a.den * b.den)

/-- Exact rational multiplication via `Rat.divInt`. -/
def qMul (a b : ℚ) : ℚ := Rat.divInt (a.num * b.num) (a.den * b.den)

/-- Exact rational division via `Rat.divInt`; meant for a nonzero divisor
(callers test for zero first, as the embedded JS code does). -/
def qDivNZ (a b : ℚ) : ℚ := Rat.divInt (a.num * b.den) (a.den * b.num)

theorem qAdd_eq (a b : ℚ) : qAdd a b = a + b := by
  have ha : (a.den : ℚ) ≠ 0 := by exact_mod_cast a.den_nz
  have hb : (b.den : ℚ) ≠ 0 := by exact_mod_cast b.den_nz
  unfold qAdd
  rw [Rat.divInt_eq_div]
  push_cast
  conv_rhs => rw [← Rat.num_div_den a, ← Rat.num_div_den b]
  rw [div_add_div _ _ ha hb]
  congr 1
  ring

theorem qSub_eq (a b : ℚ) : qSub a b = a - b := by
  have ha : (a.den : ℚ) ≠ 0 := by exact_mod_cast a.den_nz
  have hb : (b.den : ℚ) ≠ 0 := by exact_mod_cast b.den_nz
  unfold qSub
  rw [Rat.divInt_eq_div]
  push_cast
  conv_rhs => rw [← Rat.num_div_den a, ← Rat.num_div_den b]
  rw [div_sub_div _ _ ha hb]
  congr 1
  ring

theorem qMul_eq (a b : ℚ) : qMul a b = a * b := by
  unfold qMul
  rw [Rat.divInt_eq_div]
  push_cast
  conv_rhs => rw [← Rat.num_div_den a, ← Rat.num_div_den b]
  rw [div_mul_div_comm]

theorem qDivNZ_eq (a b : ℚ) (hb : b ≠ 0) : qDivNZ a b = a / b := by
  have ha : (a.den : ℚ) ≠ 0 := by exact_mod_cast a.den_nz
  have hbd : (b.den : ℚ) ≠ 0 := by exact_mod_cast b.den_nz
  have hbn : (b.num : ℚ) ≠ 0 := by exact_mod_cast Rat.num_ne_zero.mpr hb
  unfold qDivNZ
  rw [Rat.divInt_eq_div]
  push_cast
  conv_rhs => rw [← Rat.num_div_den a, ← Rat.num_div_den b]
  rw [div_div_eq_mul_div, div_mul_eq_mul_div, div_div]

/-- JS number: NaN, +Infinity, -Infinity, or a finite (rational) value. -/
inductive JsNum where
  | nan : JsNum
  | posInf : JsNum
  | negInf : JsNum
  | val : ℚ → JsNum
deriving DecidableEq

/-- JS addition on `JsNum`. -/
def jsAdd : JsNum → JsNum → JsNum
  | JsNum.nan, _ => JsNum.nan
  | _, JsNum.nan => JsNum.nan
  | JsNum.posInf, JsNum.negInf => JsNum.nan
  | JsNum.negInf, JsNum.posInf => JsNum.nan
  | JsNum.posInf, _ => JsNum.posInf
  | _, JsNum.posInf => JsNum.posInf
  | JsNum.negInf, _ => JsNum.negInf
  | _, JsNum.negInf => JsNum.negInf
  | JsNum.val a, JsNum.val b => JsNum.val (qAdd a b)

/-- JS multiplication on `JsNum`. -/
def jsMul : JsNum → JsNum → JsNum
  | JsNum.nan, _ => JsNum.nan
  | _, JsNum.nan => JsNum.nan
  | JsNum.posInf, JsNum.posInf => JsNum.posInf
  | JsNum.posInf, JsNum.negInf => JsNum.negInf
  | JsNum.negInf, JsNum.posInf => JsNum.negInf
  | JsNum.negInf, JsNum.negInf => JsNum.posInf
  | JsNum.posInf, JsNum.val b =>
      if b.num = 0 then JsNum.nan else if 0 < b.num then JsNum.posInf else JsNum.negInf
  | JsNum.val a, JsNum.posInf =>
      if a.num = 0 then JsNum.nan else if 0 < a.num then JsNum.posInf else JsNum.negInf
  | JsNum.negInf, JsNum.val b =>
      if b.num = 0 then JsNum.nan else if 0 < b.num then JsNum.negInf else JsNum.posInf
  | JsNum.val a, JsNum.negInf =>
      if a.num = 0 then JsNum.nan else if 0 < a.num then JsNum.negInf else JsNum.posInf
  | JsNum.val a, JsNum.val b => JsNum.val (qMul a b)

/-- JS division on `JsNum` (division by zero follows JS: 0/0 is NaN,
nonzero/0 is a signed infinity, treating the zero divisor as +0). -/
def jsDiv : JsNum → JsNum → JsNum
  | JsNum.nan, _ => JsNum.nan
  | _, JsNum.nan => JsNum.nan
  | JsNum.posInf, JsNum.posInf => JsNum.nan
  | JsNum.posInf, JsNum.negInf => JsNum.nan
  | JsNum.negInf, JsNum.posInf => JsNum.nan
  | JsNum.negInf, JsNum.negInf => JsNum.nan
  | JsNum.posInf, JsNum.val b => if 0 ≤ b.num then JsNum.posInf else JsNum.negInf
  | JsNum.negInf, JsNum.val b => if 0 ≤ b.num then JsNum.negInf else JsNum.posInf
  | JsNum.val _, JsNum.posInf => JsNum.val 0
  | JsNum.val _, JsNum.negInf => JsNum.val 0
  | JsNum.val a, JsNum.val b =>
      if b.num = 0 then
        (if a.num = 0 then JsNum.nan else if 0 < a.num then JsNum.posInf else JsNum.negInf)
      else JsNum.val (qDivNZ a b)

/-- JS `Math.round`: half-up rounding on finite values, identity on
NaN and the infinities. -/
def jsRound : JsNum → JsNum
  | JsNum.val q => JsNum.val ((Rat.floor (qAdd q (Rat.divInt 1 2)) : ℤ) : ℚ)
  | x => x

/-- JS `Math.max`: NaN-propagating maximum. -/
def jsMax : JsNum → JsNum → JsNum
  | JsNum.nan, _ => JsNum.nan
  | _, JsNum.nan => JsNum.nan
  | JsNum.posInf, _ => JsNum.posInf
  | _, JsNum.posInf => JsNum.posInf
  | JsNum.negInf, x => x
  | x, JsNum.negInf => x
  | JsNum.val a, JsNum.val b => JsNum.val (if Rat.blt a b then b else a)

/-- JS strict equality `===` on numbers: NaN compares unequal to
everything, including itself. -/
def jsEq : JsNum → JsNum → Bool
  | JsNum.nan, _ => false
  | _, JsNum.nan => false
  | JsNum.posInf, JsNum.posInf => true
  | JsNum.negInf, JsNum.negInf => true
  | JsNum.val a, JsNum.val b => a = b
  | _, _ => false

/-- JS `Math.round` on a plain (finite) number, producing an integer. -/
def jsRoundQ (q : ℚ) : ℤ := Rat.floor (qAdd q (Rat.divInt 1 2))

/-- Difficulty tiers (the `Difficulty` enum of geminiService.ts). -/
inductive Difficulty where
  | BEGINNER : Difficulty
  | ADVANCED : Difficulty
  | EXPERT : Difficulty
deriving DecidableEq

/-- Account roles (the `role` field of `UserStats` in App.tsx). -/
inductive Role where
  | STUDENT : Role
  | ADMIN : Role
deriving DecidableEq

/-- The four labelled options of a question. -/
structure QuestionOptions where
  A : String
  B : String
  C : String
  D : String
deriving DecidableEq

/-- A generated multiple-choice question (the `Question` interface of
geminiService.ts). -/
structure Question where
  id : String
  text : String
  options : QuestionOptions
  correctAnswer : String
  explanation : String
  subject : String
  questionType : String
deriving DecidableEq

/-- One per-question feedback entry of an `AssessmentResult`.
`selectedAnswer` is `none` when the answers record has no entry for the
question (JS `answers[q.id]` is `undefined`). -/
structure FeedbackEntry where
  questionId : String
  isCorrect : Bool
  selectedAnswer : Option String
  correctAnswer : String
  explanation : String
deriving DecidableEq

/-- A recommendation produced by gap analysis: topic plus named resource
links (name, url). -/
structure Recommendation where
  topic : String
  resources : List (String × String)
deriving DecidableEq

/-- The `AssessmentResult` interface of geminiService.ts. -/
structure AssessmentResult where
  score : Nat
  total : Nat
  feedback : List FeedbackEntry
  weakAreas : List String
  recommendations : List Recommendation
deriving DecidableEq

/-- The `TestAttempt` interface of App.tsx.  `score` holds the percentage
score, a JS number. -/
structure TestAttempt where
  date : String
  subjects : List String
  level : Difficulty
  score : JsNum
  totalQuestions : Nat
  weakAreas : List String
  attemptNumber : Nat
deriving DecidableEq

/-- The `UserStats` interface of App.tsx (one registered account).  The
optional `attempts?` array is modelled as a plain list, absent = `[]`. -/
structure UserStats where
  name : String
  email : String
  password : String
  role : Role
  level : Difficulty
  badges : List String
  totalTests : Nat
  highestScore : JsNum
  averageScore : JsNum
  beginnerAttempts : Nat
  advancedAttempts : Nat
  expertAttempts : Nat
  lastScores : List JsNum
  weakAreas : List String
  placementReady : Bool
  attempts : List TestAttempt
deriving DecidableEq

/-- The account created at registration (`handleAuth`, App.tsx lines
200-216): all counters zeroed, tier = BEGINNER. -/
def newUser (name email password : String) (role : Role) : UserStats :=
  { name := name
    email := email
    password := password
    role := role
    level := Difficulty.BEGINNER
    badges := []
    totalTests := 0
    highestScore := JsNum.val 0
    averageScore := JsNum.val 0
    beginnerAttempts := 0
    advancedAttempts := 0
    expertAttempts := 0
    lastScores := []
    weakAreas := []
    placementReady := false
    attempts := [] }

/-- First-occurrence deduplication with an accumulator of already-seen
elements; `setDedupAux [] l` models the JS `Array.from(new Set(l))`,
whose iteration order is insertion order keeping the first occurrence. -/
def setDedupAux (seen : List String) : List String → List String
  | [] => []
  | x :: xs => if x ∈ seen then setDedupAux seen xs else x :: setDedupAux (x :: seen) xs

/-- JS `Array.from(new Set(l))`. -/
def setDedup (l : List String) : List String := setDedupAux [] l

/-- The raw score of `handleSubmitTest` (App.tsx lines 399-401): the
reduce counting questions whose recorded answer strictly equals the
correct answer; a missing record entry (`undefined`) never matches. -/
def computeScore (questions : List Question) (answers : String → Option String) : Nat :=
  questions.foldl (fun acc q => acc + if answers q.id = some q.correctAnswer then 1 else 0) 0

/-- The percentage of `handleSubmitTest` (App.tsx line 403):
`Math.round((score / questions.length) * 100)`, as a JS number (NaN when
the question list is empty, since 0/0 is NaN). -/
def percentage (questions : List Question) (answers : String → Option String) : JsNum :=
  jsRound (jsMul (jsDiv (JsNum.val (computeScore questions answers : ℚ))
    (JsNum.val (questions.length : ℚ))) (JsNum.val 100))

/-- One feedback entry of `initialResults` (App.tsx lines 408-414). -/
def mkFeedback (answers : String → Option String) (q : Question) : FeedbackEntry :=
  { questionId := q.id
    isCorrect := decide (answers q.id = some q.correctAnswer)
    selectedAnswer := answers q.id
    correctAnswer := q.correctAnswer
    explanation := q.explanation }

/-- The pre-analysis result built by `handleSubmitTest` (App.tsx lines
405-417). -/
def initialResults (questions : List Question) (answers : String → Option String) :
    AssessmentResult :=
  { score := computeScore questions answers
    total := questions.length
    feedback := questions.map (mkFeedback answers)
    weakAreas := []
    recommendations := [] }

/-- Outcome of the ContentProvider call inside `analyzeGaps`
(geminiService.ts lines 94-151): the request may reject (`failure`),
return unparseable text (`response none`, the internal catch), or return
parsed weak areas and recommendations. -/
inductive ProviderOutcome where
  | failure : ProviderOutcome
  | response : Option (List String × List Recommendation) → ProviderOutcome

/-- The `analyzeGaps` function of geminiService.ts: short-circuits to "no
gaps" when score equals total (no provider call, so no failure is
possible there); otherwise a rejected request propagates as an exception
(`Except.error`), while a parse failure is caught internally and yields
the un-augmented result. -/
def analyzeGaps (results : AssessmentResult) (outcome : ProviderOutcome) :
    Except Unit AssessmentResult :=
  if results.score = results.total then
    Except.ok { results with weakAreas := [], recommendations := [] }
  else
    match outcome with
    | ProviderOutcome.failure => Except.error ()
    | ProviderOutcome.response none => Except.ok results
    | ProviderOutcome.response (some (w, r)) =>
        Except.ok { results with weakAreas := w, recommendations := r }

/-- The account update of `handleSubmitTest` (App.tsx lines 424-466): the
statistics updates, the weak-area merge, the new attempt record, and the
tier-unlock/badge logic guarded by `percentage === 100`. -/
def updateStats (user : UserStats) (percentage : JsNum) (totalQuestions : Nat)
    (analyzedWeakAreas : List String) (difficulty : Difficulty)
    (subjects : List String) (date : String) : UserStats :=
  let newTotal := user.totalTests + 1
  let newAttempt : TestAttempt :=
    { date := date
      subjects := subjects
      level := difficulty
      score := percentage
      totalQuestions := totalQuestions
      weakAreas := analyzedWeakAreas
      attemptNumber := newTotal }
  let base : UserStats :=
    { user with
      totalTests := newTotal
      highestScore := jsMax user.highestScore percentage
      lastScores := (percentage :: user.lastScores).take 5
      averageScore := jsRound (jsDiv
        (jsAdd (jsMul user.averageScore (JsNum.val (user.totalTests : ℚ))) percentage)
        (JsNum.val (newTotal : ℚ)))
      beginnerAttempts :=
        if difficulty = Difficulty.BEGINNER then user.beginnerAttempts + 1
        else user.beginnerAttempts
      advancedAttempts :=
        if difficulty = Difficulty.ADVANCED then user.advancedAttempts + 1
        else user.advancedAttempts
      expertAttempts :=
        if difficulty = Difficulty.EXPERT then user.expertAttempts + 1
        else user.expertAttempts
      weakAreas := (setDedup (user.weakAreas ++ analyzedWeakAreas)).take 10
      attempts := newAttempt :: user.attempts }
  if jsEq percentage (JsNum.val 100) then
    if difficulty = Difficulty.BEGINNER ∧ "Beginner Champion" ∉ user.badges then
      { base with badges := user.badges ++ ["Beginner Champion"], level := Difficulty.ADVANCED }
    else if difficulty = Difficulty.ADVANCED ∧ "Advanced Master" ∉ user.badges then
      { base with badges := user.badges ++ ["Advanced Master"], level := Difficulty.EXPERT }
    else if difficulty = Difficulty.EXPERT ∧ "Expert Legend" ∉ user.badges then
      { base with badges := user.badges ++ ["Expert Legend"], placementReady := true }
    else base
  else base

/-- The observable outcome of one `handleSubmitTest` run: the displayed
result, the in-memory account, and what (if anything) was written back
to the `coach_users` store. -/
structure SubmitOutput where
  results : AssessmentResult
  user : UserStats
  persisted : Option UserStats
deriving DecidableEq

/-- The `handleSubmitTest` flow of App.tsx (lines 395-483): build the raw
result, call `analyzeGaps`; on success run the whole account update and
persist it; if `analyzeGaps` throws, the catch block only falls back to
the raw result - the account update and the store write are skipped. -/
def handleSubmitTest (questions : List Question) (answers : String → Option String)
    (user : UserStats) (difficulty : Difficulty) (subjects : List String)
    (date : String) (outcome : ProviderOutcome) : SubmitOutput :=
  let init := initialResults questions answers
  match analyzeGaps init outcome with
  | Except.error _ => { results := init, user := user, persisted := none }
  | Except.ok analyzed =>
      let updated := updateStats user (percentage questions answers) questions.length
        analyzed.weakAreas difficulty subjects date
      { results := analyzed, user := updated, persisted := some updated }

/-- The data of one completed assessment fed to the progression update:
the question batch, the answers record, the weak areas produced by gap
analysis, and the session parameters. -/
structure AssessmentInput where
  questions : List Question
  answers : String → Option String
  weakFound : List String
  difficulty : Difficulty
  subjects : List String
  date : String

/-- Apply the progression update of one completed assessment to an
account (the `updateStats` block as invoked by `handleSubmitTest`). -/
def applyProgression (u : UserStats) (a : AssessmentInput) : UserStats :=
  updateStats u (percentage a.questions a.answers) a.questions.length
    a.weakFound a.difficulty a.subjects a.date

/-- Fold the progression update over a sequence of completed
assessments. -/
def runProgression (u : UserStats) (l : List AssessmentInput) : UserStats :=
  l.foldl applyProgression u

/-- One step of the incremental running-average formula of App.tsx lines
432-434: `newAvg = Math.round((oldAvg * oldTotal + newPct) / (oldTotal + 1))`. -/
def avgStep (oldAvg : JsNum) (oldTotal : Nat) (newPct : JsNum) : JsNum :=
  jsRound (jsDiv (jsAdd (jsMul oldAvg (JsNum.val (oldTotal : ℚ))) newPct)
    (JsNum.val ((oldTotal + 1 : Nat) : ℚ)))

/-- Iterate the incremental running-average formula over a list of
percentage scores, starting from a given average and test count. -/
def incrAvgFrom (oldAvg : JsNum) (oldTotal : Nat) : List JsNum → JsNum
  | [] => oldAvg
  | p :: ps => incrAvgFrom (avgStep oldAvg oldTotal p) (oldTotal + 1) ps

/-- A coding problem of a contest (the fields the embedded contest logic
actually reads). -/
structure CodingProblem where
  id : String
  title : String
deriving DecidableEq

/-- The `Contest` interface of App.tsx.  `startTimeMs` is the epoch value
`new Date(contest.startTime).getTime()`; `duration` is in minutes. -/
structure Contest where
  id : String
  title : String
  startTimeMs : ℤ
  duration : ℚ
  subjects : List String
  problems : List CodingProblem
deriving DecidableEq

/-- The two rejection messages of `handleJoinContest`. -/
inductive JoinError where
  | notStarted : JoinError
  | ended : JoinError
deriving DecidableEq

/-- The contest-session state set up by a successful `handleJoinContest`
(App.tsx lines 523-528). -/
structure ContestJoinState where
  activeContest : Contest
  contestProblems : List CodingProblem
  contestTimeLeft : ℤ
  tabSwitches : Nat
  currentProblemIndex : Nat
deriving DecidableEq

/-- The `handleJoinContest` function (App.tsx lines 509-529): `diff` is
the elapsed time in minutes since the contest start; joining is rejected
before the start (`diff < 0`) or after the end (`diff > duration`);
otherwise the session becomes active with
`contestTimeLeft = Math.round((duration - diff) * 60)` seconds, zero tab
switches and problem index 0. -/
def handleJoinContest (contest : Contest) (nowMs : ℤ) : Except JoinError ContestJoinState :=
  let diff : ℚ := Rat.divInt (nowMs - contest.startTimeMs) (1000 * 60)
  if diff.num < 0 then Except.error JoinError.notStarted
  else if Rat.blt contest.duration diff then Except.error JoinError.ended
  else Except.ok
    { activeContest := contest
      contestProblems := contest.problems
      contestTimeLeft := jsRoundQ (qMul (qSub contest.duration diff) 60)
      tabSwitches := 0
      currentProblemIndex := 0 }

/-- The contest-session state the anti-cheating logic acts on: whether
the app is in the `contest-active` state, the tab-switch counter, and an
instrumentation counter of how many times `handleSubmitContest` has run. -/
structure ContestRunState where
  contestActive : Bool
  tabSwitches : Nat
  submissions : Nat
deriving DecidableEq

/-- The `handleSubmitContest` function (App.tsx lines 531-535): leaves the
`contest-active` app state (to the dashboard); the `submissions` field
counts its invocations. -/
def handleSubmitContest (s : ContestRunState) : ContestRunState :=
  { s with contestActive := false, submissions := s.submissions + 1 }

/-- Messages shown by the anti-cheating handlers: a warning carrying the
`3 - newVal` chances left, or the maximum-reached message. -/
inductive ViolationMsg where
  | warning : Nat → ViolationMsg
  | maxReached : ViolationMsg
deriving DecidableEq

/-- One focus-loss event (the `handleVisibilityChange` / `handleBlur`
handlers, App.tsx lines 276-313).  The handlers are registered only while
the app state is `contest-active` and removed on leaving it, so an event
outside that state is a no-op.  While active: increment the counter; at
`newVal >= 3` announce the maximum and force-submit, otherwise warn with
`3 - newVal` chances left. -/
def handleViolationEvent (s : ContestRunState) : ContestRunState × Option ViolationMsg :=
  if s.contestActive then
    let newVal := s.tabSwitches + 1
    if 3 ≤ newVal then
      (handleSubmitContest { s with tabSwitches := newVal }, some ViolationMsg.maxReached)
    else
      ({ s with tabSwitches := newVal }, some (ViolationMsg.warning (3 - newVal)))
  else (s, none)

/-- Run `n` successive focus-loss events, collecting the emitted
messages. -/
def runViolations : Nat → ContestRunState → ContestRunState × List ViolationMsg
  | 0, s => (s, [])
  | n + 1, s =>
      let step := handleViolationEvent s
      let rest := runViolations n step.1
      (rest.1, step.2.toList ++ rest.2)

/-- The contest-session state right after a successful join: active, zero
tab switches, no submission yet. -/
def contestStart : ContestRunState :=
  { contestActive := true, tabSwitches := 0, submissions := 0 }

/-- The badge name the tier-unlock rule pairs with each difficulty tier
(App.tsx lines 456, 459, 462). -/
def tierBadge : Difficulty → String
  | Difficulty.BEGINNER => "Beginner Champion"
  | Difficulty.ADVANCED => "Advanced Master"
  | Difficulty.EXPERT => "Expert Legend"

/-- A sample registered account used in concrete instantiations. -/
def aliceUser : UserStats := newUser "Alice" "alice@example.com" "pw" Role.STUDENT

theorem updateStats_totalTests (u : UserStats) (pct : JsNum) (tq : Nat)
    (w : List String) (d : Difficulty) (s : List String) (dt : String) :
    (updateStats u pct tq w d s dt).totalTests = u.totalTests + 1 := by
  simp only [updateStats]
  repeat' split
  all_goals rfl

theorem updateStats_averageScore (u : UserStats) (pct : JsNum) (tq : Nat)
    (w : List String) (d : Difficulty) (s : List String) (dt : String) :
    (updateStats u pct tq w d s dt).averageScore = avgStep u.averageScore u.totalTests pct := by
  simp only [updateStats, avgStep]
  repeat' split
  all_goals rfl

theorem updateStats_weakAreas (u : UserStats) (pct : JsNum) (tq : Nat)
    (w : List String) (d : Difficulty) (s : List String) (dt : String) :
    (updateStats u pct tq w d s dt).weakAreas = (setDedup (u.weakAreas ++ w)).take 10 := by
  simp only [updateStats]
  repeat' split
  all_goals rfl

theorem updateStats_highestScore (u : UserStats) (pct : JsNum) (tq : Nat)
    (w : List String) (d : Difficulty) (s : List String) (dt : String) :
    (updateStats u pct tq w d s dt).highestScore = jsMax u.highestScore pct := by
  simp only [updateStats]
  repeat' split
  all_goals rfl

theorem updateStats_lastScores (u : UserStats) (pct : JsNum) (tq : Nat)
    (w : List String) (d : Difficulty) (s : List String) (dt : String) :
    (updateStats u pct tq w d s dt).lastScores = (pct :: u.lastScores).take 5 := by
  simp only [updateStats]
  repeat' split
  all_goals rfl

theorem jsAdd_nan_right (x : JsNum) : jsAdd x JsNum.nan = JsNum.nan := by
  cases x <;> rfl

theorem jsMax_nan_right (x : JsNum) : jsMax x JsNum.nan = JsNum.nan := by
  cases x <;> rfl

theorem jsEq_nan_left (x : JsNum) : jsEq JsNum.nan x = false := by
  cases x <;> rfl

theorem setDedupAux_nodup_disjoint (l : List String) :
    ∀ seen : List String, (setDedupAux seen l).Nodup ∧ ∀ x ∈ setDedupAux seen l, x ∉ seen := by
  induction l with
  | nil => intro seen; simp [setDedupAux]
  | cons x xs ih =>
      intro seen
      by_cases hx : x ∈ seen
      · simpa [setDedupAux, hx] using ih seen
      · obtain ⟨hnd, hdisj⟩ := ih (x :: seen)
        refine ⟨?_, ?_⟩
        · simp only [setDedupAux, hx, if_false]
          exact List.Nodup.cons (fun hmem => hdisj x hmem (List.mem_cons_self x seen)) hnd
        · intro y hy
          simp only [setDedupAux, hx, if_false, List.mem_cons] at hy
          rcases hy with rfl | hy
          · exact hx
          · intro hseen
            exact hdisj y hy (List.mem_cons_of_mem x hseen)

theorem setDedup_nodup (l : List String) : (setDedup l).Nodup :=
  (setDedupAux_nodup_disjoint l []).1

/-- An account that already holds ten distinct weak areas. -/
def uTenWeak : UserStats :=
  { aliceUser with weakAreas := ["a0","a1","a2","a3","a4","a5","a6","a7","a8","a9"] }

/-- C2, counterexample: merging the new weak area "z" into an account
already holding ten weak areas keeps the ten old entries and silently
drops "z" - the old entries, not the new ones, take priority when the
merge is truncated to 10, contradicting the claim. -/
theorem weak_area_new_entry_dropped :
    (updateStats uTenWeak (JsNum.val 50) 5 ["z"] Difficulty.BEGINNER [] "d").weakAreas =
      ["a0","a1","a2","a3","a4","a5","a6","a7","a8","a9"] ∧
    "z" ∉ (updateStats uTenWeak (JsNum.val 50) 5 ["z"] Difficulty.BEGINNER [] "d").weakAreas := by
  decide

/-- C2, amended: after any progression update the weak-area list is the
first-occurrence-deduplicated merge of the old weak areas followed by the
newly found ones, truncated to the first 10 entries (old entries take
priority over new when truncating); it never exceeds 10 entries and
contains no duplicates. -/
theorem weak_area_merge_dedup_bounded (u : UserStats) (pct : JsNum) (tq : Nat)
    (w : List String) (d : Difficulty) (s : List String) (dt : String) :
    (updateStats u pct tq w d s dt).weakAreas = (setDedup (u.weakAreas ++ w)).take 10 ∧
    (updateStats u pct tq w d s dt).weakAreas.length ≤ 10 ∧
    (updateStats u pct tq w d s dt).weakAreas.Nodup := by
  refine ⟨updateStats_weakAreas u pct tq w d s dt, ?_, ?_⟩
  · rw [updateStats_weakAreas]
    exact List.length_take_le 10 _
  · rw [updateStats_weakAreas]
    exact (setDedup_nodup _).sublist (List.take_sublist _ _)

/-- C7: badge granting is idempotent - if an account already holds the
badge paired with the assessment's tier, the progression update changes
neither the badge list, nor the level, nor the placement-ready flag,
whatever the score. -/
theorem badge_grant_idempotent (u : UserStats) (pct : JsNum) (tq : Nat)
    (w : List String) (d : Difficulty) (s : List String) (dt : String)
    (h : tierBadge d ∈ u.badges) :
    (updateStats u pct tq w d s dt).badges = u.badges ∧
    (updateStats u pct tq w d s dt).level = u.level ∧
    (updateStats u pct tq w d s dt).placementReady = u.placementReady := by
  cases d <;> simp only [tierBadge] at h <;> simp [updateStats, h]

/-- An EXPERT-tier account already holding all three badges. -/
def expertAllBadges : UserStats :=
  { aliceUser with
    level := Difficulty.EXPERT
    badges := ["Beginner Champion", "Advanced Master", "Expert Legend"]
    placementReady := true }

/-- C7 witness: an EXPERT account holding all three badges keeps its badge
list, level and placement-ready flag unchanged after another 100% score. -/
theorem badge_grant_idempotent_witness :
    (updateStats expertAllBadges (JsNum.val 100) 10 [] Difficulty.EXPERT [] "d").badges =
      expertAllBadges.badges ∧
    (updateStats expertAllBadges (JsNum.val 100) 10 [] Difficulty.EXPERT [] "d").level =
      expertAllBadges.level ∧
    (updateStats expertAllBadges (JsNum.val 100) 10 [] Difficulty.EXPERT [] "d").placementReady =
      expertAllBadges.placementReady :=
  badge_grant_idempotent expertAllBadges (JsNum.val 100) 10 [] Difficulty.EXPERT [] "d"
    (by decide)

/-- C8: placementReady is monotonic - an account with the flag set keeps
it set through any progression update, whatever the score or tier. -/
theorem placement_ready_monotone (u : UserStats) (pct : JsNum) (tq : Nat)
    (w : List String) (d : Difficulty) (s : List String) (dt : String)
    (h : u.placementReady = true) :
    (updateStats u pct tq w d s dt).placementReady = true := by
  simp only [updateStats]
  repeat' split
  all_goals simp [h]

/-- C8 witness: a placement-ready account stays placement-ready after a
further (non-perfect) assessment. -/
theorem placement_ready_monotone_witness :
    (updateStats expertAllBadges (JsNum.val 40) 10 ["DBMS"] Difficulty.BEGINNER [] "d").placementReady =
      true :=
  placement_ready_monotone expertAllBadges (JsNum.val 40) 10 ["DBMS"] Difficulty.BEGINNER [] "d"
    (by decide)

theorem ratFloor_eq_intFloor (q : ℚ) : Rat.floor q = ⌊q⌋ := by
  rw [Rat.floor_def', Rat.floor_def]

/-- A sample contest: duration 1 minute, starting at epoch 0. -/
def sampleContest : Contest :=
  { id := "c1"
    title := "Sample"
    startTimeMs := 0
    duration := 1
    subjects := []
    problems := [] }

/-- C4, counterexample: joining the 1-minute contest 500 ms after its
start leaves 59.5 s of remaining time; the code sets the countdown to
Math.round(59.5) = 60, while the floor is 59 - the computed countdown is
rounded half-up, not floored. -/
theorem join_countdown_not_floored :
    handleJoinContest sampleContest 500 = Except.ok
      { activeContest := sampleContest
        contestProblems := []
        contestTimeLeft := 60
        tabSwitches := 0
        currentProblemIndex := 0 } ∧
    Rat.floor (qMul (qSub sampleContest.duration
      (Rat.divInt (500 - sampleContest.startTimeMs) (1000 * 60))) 60) = 59 ∧
    (60 : ℤ) ≠ 59 :=
  ⟨rfl, rfl, by decide⟩

/-- C4, amended: with elapsed = (nowMs - startTimeMs) / 60000 minutes,
joining is rejected with "not yet started" when elapsed < 0 and with
"already ended" when elapsed > duration (no session state is produced);
otherwise the session becomes active with countdown
round((duration - elapsed) * 60) seconds - rounded half-up, not floored -
zero tab switches and problem index 0. -/
theorem join_contest_rounds_countdown (c : Contest) (nowMs : ℤ) :
    (Rat.divInt (nowMs - c.startTimeMs) (1000 * 60) < 0 →
      handleJoinContest c nowMs = Except.error JoinError.notStarted) ∧
    (0 ≤ Rat.divInt (nowMs - c.startTimeMs) (1000 * 60) →
      c.duration < Rat.divInt (nowMs - c.startTimeMs) (1000 * 60) →
      handleJoinContest c nowMs = Except.error JoinError.ended) ∧
    (0 ≤ Rat.divInt (nowMs - c.startTimeMs) (1000 * 60) →
      Rat.divInt (nowMs - c.startTimeMs) (1000 * 60) ≤ c.duration →
      handleJoinContest c nowMs = Except.ok
        { activeContest := c
          contestProblems := c.problems
          contestTimeLeft := jsRoundQ (qMul (qSub c.duration
            (Rat.divInt (nowMs - c.startTimeMs) (1000 * 60))) 60)
          tabSwitches := 0
          currentProblemIndex := 0 }) := by
  refine ⟨?_, ?_, ?_⟩
  · intro h
    simp only [handleJoinContest]
    rw [if_pos (Rat.num_neg.mpr h)]
  · intro h0 hgt
    have hgt2 : c.duration.blt (Rat.divInt (nowMs - c.startTimeMs) (1000 * 60)) = true := hgt
    simp only [handleJoinContest]
    rw [if_neg (Int.not_lt.mpr (Rat.num_nonneg.mpr h0)), if_pos hgt2]
  · intro h0 hle
    have hle2 : ¬ c.duration.blt (Rat.divInt (nowMs - c.startTimeMs) (1000 * 60)) = true :=
      not_lt.mpr hle
    simp only [handleJoinContest]
    rw [if_neg (Int.not_lt.mpr (Rat.num_nonneg.mpr h0)), if_neg hle2]

/-- C4 witness: joining the sample contest 500 ms in (elapsed between 0
and the duration) succeeds with the rounded countdown. -/
theorem join_contest_rounds_countdown_witness :
    handleJoinContest sampleContest 500 = Except.ok
      { activeContest := sampleContest
        contestProblems := sampleContest.problems
        contestTimeLeft := jsRoundQ (qMul (qSub sampleContest.duration
          (Rat.divInt (500 - sampleContest.startTimeMs) (1000 * 60))) 60)
        tabSwitches := 0
        currentProblemIndex := 0 } :=
  (join_contest_rounds_countdown sampleContest 500).2.2 (by decide) (by decide)

theorem runViolations_inactive (n : Nat) (s : ContestRunState) (h : s.contestActive = false) :
    runViolations n s = (s, []) := by
  induction n with
  | zero => rfl
  | succ n ih => simp [runViolations, handleViolationEvent, h, ih]

theorem runViolations_add (a b : Nat) (s : ContestRunState) :
    runViolations (a + b) s =
      ((runViolations b (runViolations a s).1).1,
        (runViolations a s).2 ++ (runViolations b (runViolations a s).1).2) := by
  induction a generalizing s with
  | zero => simp [runViolations]
  | succ a ih =>
      have hh : a + 1 + b = (a + b) + 1 := by omega
      rw [hh]
      simp only [runViolations]
      rw [ih]
      simp [List.append_assoc]

/-- C5: starting from a freshly joined contest session, each of the first
two focus-loss events increments the counter by one, keeps the session
active and warns with 3 - count chances left (2, then 1); the third event
announces the maximum and force-submits exactly once; and any further
events change nothing - exactly one submission, exactly three messages,
for every n >= 3. -/
theorem violation_threshold (n : Nat) :
    (n < 3 → runViolations n contestStart =
      ({ contestActive := true, tabSwitches := n, submissions := 0 },
        (List.range n).map fun k => ViolationMsg.warning (2 - k))) ∧
    (3 ≤ n → runViolations n contestStart =
      ({ contestActive := false, tabSwitches := 3, submissions := 1 },
        [ViolationMsg.warning 2, ViolationMsg.warning 1, ViolationMsg.maxReached])) := by
  constructor
  · intro h
    have h3 : n = 0 ∨ n = 1 ∨ n = 2 := by omega
    rcases h3 with rfl | rfl | rfl <;> decide
  · intro h
    obtain ⟨k, rfl⟩ : ∃ k, n = 3 + k := ⟨n - 3, by omega⟩
    rw [runViolations_add 3 k contestStart]
    have h3 : runViolations 3 contestStart =
        ({ contestActive := false, tabSwitches := 3, submissions := 1 },
          [ViolationMsg.warning 2, ViolationMsg.warning 1, ViolationMsg.maxReached]) := by
      decide
    rw [h3]
    simp [runViolations_inactive]

/-- C5 witness: after four focus-loss events the contest was submitted
exactly once (no double submission on the fourth event) and exactly the
three messages were issued. -/
theorem violation_threshold_witness :
    runViolations 4 contestStart =
      ({ contestActive := false, tabSwitches := 3, submissions := 1 },
        [ViolationMsg.warning 2, ViolationMsg.warning 1, ViolationMsg.maxReached]) :=
  (violation_threshold 4).2 (by decide)

/-- A multiple-choice question with the given id whose correct answer is
option label "A". -/
def mkQuestionA (s : String) : Question :=
  { id := s
    text := ""
    options := { A := "", B := "", C := "", D := "" }
    correctAnswer := "A"
    explanation := ""
    subject := ""
    questionType := "" }

/-- Ten questions with ids q0..q9, all with correct answer "A". -/
def tenQuestions : List Question :=
  [mkQuestionA "q0", mkQuestionA "q1", mkQuestionA "q2", mkQuestionA "q3",
   mkQuestionA "q4", mkQuestionA "q5", mkQuestionA "q6", mkQuestionA "q7",
   mkQuestionA "q8", mkQuestionA "q9"]

/-- A single question with id p0. -/
def oneQuestion : List Question := [mkQuestionA "p0"]

/-- An answers record answering only q0 (correctly). -/
def answersFirstOnly : String → Option String :=
  fun s => if s = "q0" then some "A" else none

/-- An empty answers record (no question answered). -/
def answersNone : String → Option String := fun _ => none

/-- A completed assessment scoring 1/10, i.e. a 10% percentage score. -/
def tenPercentInput : AssessmentInput :=
  { questions := tenQuestions
    answers := answersFirstOnly
    weakFound := []
    difficulty := Difficulty.BEGINNER
    subjects := []
    date := "d" }

/-- A completed assessment scoring 0/1, i.e. a 0% percentage score. -/
def zeroPercentInput : AssessmentInput :=
  { questions := oneQuestion
    answers := answersNone
    weakFound := []
    difficulty := Difficulty.BEGINNER
    subjects := []
    date := "d" }

/-- C1, counterexample: starting from a fresh account, the four
assessments with percentage scores 10, 0, 0, 0 leave averageScore = 2
(the iterated incremental formula: 10, 5, 3, 2), while the rounded mean
of all four scores is round(10/4) = 3 - so averageScore after N attempts
does not always equal round(mean of all N percentage scores). -/
theorem average_differs_from_round_mean :
    percentage tenQuestions answersFirstOnly = JsNum.val 10 ∧
    percentage oneQuestion answersNone = JsNum.val 0 ∧
    (runProgression aliceUser
      [tenPercentInput, zeroPercentInput, zeroPercentInput, zeroPercentInput]).averageScore =
      JsNum.val 2 ∧
    jsRound (jsDiv (jsAdd (jsAdd (jsAdd (JsNum.val 10) (JsNum.val 0)) (JsNum.val 0))
      (JsNum.val 0)) (JsNum.val 4)) = JsNum.val 3 ∧
    (JsNum.val 2 : JsNum) ≠ JsNum.val 3 := by
  decide

/-- C1, amended: after any sequence of completed assessments the
account's averageScore equals the iteration of the incremental formula
newAvg = round((oldAvg * oldTotal + newPct) / (oldTotal + 1)) over the
percentage scores (starting from the account's current average and test
count - for a fresh account, from averageScore = 0 and totalTests = 0),
and totalTests counts the assessments; this iterated value can differ
from round(mean of all scores). -/
theorem average_follows_incremental_formula (u : UserStats) (l : List AssessmentInput) :
    (runProgression u l).averageScore =
      incrAvgFrom u.averageScore u.totalTests
        (l.map fun a => percentage a.questions a.answers) ∧
    (runProgression u l).totalTests = u.totalTests + l.length := by
  induction l generalizing u with
  | nil => simp [runProgression, incrAvgFrom]
  | cons a t ih =>
      have hrun : runProgression u (a :: t) = runProgression (applyProgression u a) t := rfl
      have h1 : (applyProgression u a).averageScore =
          avgStep u.averageScore u.totalTests (percentage a.questions a.answers) :=
        updateStats_averageScore u _ _ _ _ _ _
      have h2 : (applyProgression u a).totalTests = u.totalTests + 1 :=
        updateStats_totalTests u _ _ _ _ _ _
      obtain ⟨ha, ht⟩ := ih (applyProgression u a)
      constructor
      · rw [hrun, ha, h1, h2]
        rfl
      · rw [hrun, ht, h2, List.length_cons]
        omega

/-- C3, counterexample: when the gap-analysis request rejects, the session
does fall back to the raw result, but the account is NOT updated (its
test counter stays 0) and nothing is persisted, whereas the success path
on the same input increments the counter to 1 - contradicting the claim
that counters are applied and the account persisted exactly as on the
success path. -/
theorem gap_failure_no_update_counterexample :
    (handleSubmitTest oneQuestion answersNone aliceUser Difficulty.BEGINNER [] "d"
      ProviderOutcome.failure).results = initialResults oneQuestion answersNone ∧
    (handleSubmitTest oneQuestion answersNone aliceUser Difficulty.BEGINNER [] "d"
      ProviderOutcome.failure).user.totalTests = 0 ∧
    (handleSubmitTest oneQuestion answersNone aliceUser Difficulty.BEGINNER [] "d"
      ProviderOutcome.failure).persisted = none ∧
    (handleSubmitTest oneQuestion answersNone aliceUser Difficulty.BEGINNER [] "d"
      (ProviderOutcome.response none)).user.totalTests = 1 := by
  decide

/-- C3, amended: whenever the gap-analysis request rejects (which can only
happen when the score is not perfect, since a perfect score
short-circuits before the provider call), the session completes with the
raw un-analyzed result, but the whole progression update is skipped: the
account is returned unchanged and nothing is written to the store. -/
theorem gap_failure_skips_progression (qs : List Question) (ans : String → Option String)
    (u : UserStats) (d : Difficulty) (subj : List String) (date : String)
    (h : computeScore qs ans ≠ qs.length) :
    handleSubmitTest qs ans u d subj date ProviderOutcome.failure =
      { results := initialResults qs ans, user := u, persisted := none } := by
  unfold handleSubmitTest analyzeGaps
  simp only [initialResults]
  rw [if_neg h]

/-- C3 witness: a one-question assessment with no answers (score 0 of 1)
whose gap analysis rejects leaves the account untouched. -/
theorem gap_failure_skips_progression_witness :
    handleSubmitTest oneQuestion answersNone aliceUser Difficulty.ADVANCED ["DSA"] "d2"
      ProviderOutcome.failure =
      { results := initialResults oneQuestion answersNone
        user := aliceUser
        persisted := none } :=
  gap_failure_skips_progression oneQuestion answersNone aliceUser Difficulty.ADVANCED ["DSA"] "d2"
    (by decide)

/-- C6: a fresh-statistics BEGINNER account (no tests, average 0, no
badges) that submits an assessment answering all 100 of 100 questions
correctly ends with totalTests = 1, averageScore = 100,
badges = ["Beginner Champion"] and level = ADVANCED. -/
theorem perfect_score_beginner_first_test
    (u : UserStats) (qs : List Question) (ans : String → Option String)
    (subj : List String) (date : String) (outcome : ProviderOutcome)
    (h0 : u.totalTests = 0) (h1 : u.averageScore = JsNum.val 0)
    (h2 : u.badges = []) (h3 : u.level = Difficulty.BEGINNER)
    (hlen : qs.length = 100) (hscore : computeScore qs ans = 100) :
    (handleSubmitTest qs ans u Difficulty.BEGINNER subj date outcome).user.totalTests = 1 ∧
    (handleSubmitTest qs ans u Difficulty.BEGINNER subj date outcome).user.averageScore =
      JsNum.val 100 ∧
    (handleSubmitTest qs ans u Difficulty.BEGINNER subj date outcome).user.badges =
      ["Beginner Champion"] ∧
    (handleSubmitTest qs ans u Difficulty.BEGINNER subj date outcome).user.level =
      Difficulty.ADVANCED := by
  have hpct : percentage qs ans = JsNum.val 100 := by
    unfold percentage
    rw [hscore, hlen]
    decide
  have heq : computeScore qs ans = qs.length := by rw [hscore, hlen]
  have huser : (handleSubmitTest qs ans u Difficulty.BEGINNER subj date outcome).user =
      updateStats u (JsNum.val 100) qs.length [] Difficulty.BEGINNER subj date := by
    unfold handleSubmitTest analyzeGaps
    simp only [initialResults]
    rw [if_pos heq]
    simp [hpct]
  have h100 : jsEq (JsNum.val 100) (JsNum.val 100) = true := by decide
  refine ⟨?_, ?_, ?_, ?_⟩
  · rw [huser, updateStats_totalTests, h0]
  · rw [huser, updateStats_averageScore, h1, h0]
    decide
  · rw [huser]
    simp [updateStats, h2, h100]
  · rw [huser]
    simp [updateStats, h2, h100]

/-- One hundred questions with distinct ids, all with correct answer "A". -/
def hundredQuestions : List Question := (List.range 100).map (fun i => mkQuestionA (toString i))

/-- An answers record answering "A" to everything. -/
def answersAllA : String → Option String := fun _ => some "A"

set_option maxRecDepth 100000 in
/-- C6 witness: the fresh account Alice submits a 100/100 BEGINNER
assessment and ends with one test taken, average 100, the Beginner
Champion badge, and the ADVANCED tier. -/
theorem perfect_score_beginner_first_test_witness :
    (handleSubmitTest hundredQuestions answersAllA aliceUser Difficulty.BEGINNER [] "d"
      ProviderOutcome.failure).user.totalTests = 1 ∧
    (handleSubmitTest hundredQuestions answersAllA aliceUser Difficulty.BEGINNER [] "d"
      ProviderOutcome.failure).user.averageScore = JsNum.val 100 ∧
    (handleSubmitTest hundredQuestions answersAllA aliceUser Difficulty.BEGINNER [] "d"
      ProviderOutcome.failure).user.badges = ["Beginner Champion"] ∧
    (handleSubmitTest hundredQuestions answersAllA aliceUser Difficulty.BEGINNER [] "d"
      ProviderOutcome.failure).user.level = Difficulty.ADVANCED :=
  perfect_score_beginner_first_test aliceUser hundredQuestions answersAllA [] "d"
    ProviderOutcome.failure rfl rfl rfl rfl (by decide) (by decide)

theorem foldl_score_add (ans : String → Option String) (qs : List Question) :
    ∀ n : Nat,
      qs.foldl (fun acc q => acc + if ans q.id = some q.correctAnswer then 1 else 0) n =
      n + qs.countP (fun q => decide (ans q.id = some q.correctAnswer)) := by
  induction qs with
  | nil => intro n; simp
  | cons q t ih =>
      intro n
      by_cases h : ans q.id = some q.correctAnswer <;>
        simp [List.countP_cons, ih, h] <;> omega

/-- An answers record answering q0..q6 (correctly) and nothing else. -/
def answersSeven : String → Option String :=
  fun s => if s ∈ (["q0", "q1", "q2", "q3", "q4", "q5", "q6"] : List String)
    then some "A" else none

/-- C9: the raw score counts exactly the questions whose recorded answer
equals the correct answer, and a feedback entry with an absent selected
answer is never marked correct; in the 10-question scenario with 7
answered correctly and 3 unanswered, score = 7, total = 10, and the three
unanswered questions' feedback entries have selectedAnswer = none and
isCorrect = false. -/
theorem score_counts_matching_answers (qs : List Question) (ans : String → Option String) :
    (computeScore qs ans =
      qs.countP fun q => decide (ans q.id = some q.correctAnswer)) ∧
    (∀ e ∈ (initialResults qs ans).feedback, e.selectedAnswer = none → e.isCorrect = false) ∧
    computeScore tenQuestions answersSeven = 7 ∧
    (initialResults tenQuestions answersSeven).total = 10 ∧
    ((initialResults tenQuestions answersSeven).feedback.filter
        fun e => e.selectedAnswer == none) =
      [{ questionId := "q7", isCorrect := false, selectedAnswer := none,
         correctAnswer := "A", explanation := "" },
       { questionId := "q8", isCorrect := false, selectedAnswer := none,
         correctAnswer := "A", explanation := "" },
       { questionId := "q9", isCorrect := false, selectedAnswer := none,
         correctAnswer := "A", explanation := "" }] := by
  refine ⟨?_, ?_, by decide, by decide, by decide⟩
  · have h := foldl_score_add ans qs 0
    simpa [computeScore] using h
  · intro e he hsel
    simp only [initialResults, List.mem_map] at he
    obtain ⟨q, hq, rfl⟩ := he
    simp only [mkFeedback] at hsel ⊢
    rw [hsel]
    simp

/-- C9 witness: the feedback entry of the unanswered question q7 in the
7-of-10 scenario is marked not correct. -/
theorem score_counts_matching_answers_witness :
    ({ questionId := "q7", isCorrect := false, selectedAnswer := none,
       correctAnswer := "A", explanation := "" } : FeedbackEntry).isCorrect = false :=
  (score_counts_matching_answers tenQuestions answersSeven).2.1
    { questionId := "q7", isCorrect := false, selectedAnswer := none,
      correctAnswer := "A", explanation := "" } (by decide) rfl

/-- C10: submitting an assessment with a zero-length question batch
computes percentage = Math.round((0/0)*100) = NaN; NaN === 100 is false,
so no badge is granted and the tier does not advance, but the unguarded
division still flows into the stored statistics: averageScore and
highestScore become NaN and NaN is prepended to lastScores, and this
corrupted account is persisted. -/
theorem empty_batch_corrupts_stats (u : UserStats) (ans : String → Option String)
    (d : Difficulty) (subj : List String) (date : String) (outcome : ProviderOutcome) :
    percentage [] ans = JsNum.nan ∧
    jsEq (percentage [] ans) (JsNum.val 100) = false ∧
    (handleSubmitTest [] ans u d subj date outcome).user.badges = u.badges ∧
    (handleSubmitTest [] ans u d subj date outcome).user.level = u.level ∧
    (handleSubmitTest [] ans u d subj date outcome).user.placementReady = u.placementReady ∧
    (handleSubmitTest [] ans u d subj date outcome).user.totalTests = u.totalTests + 1 ∧
    (handleSubmitTest [] ans u d subj date outcome).user.averageScore = JsNum.nan ∧
    (handleSubmitTest [] ans u d subj date outcome).user.highestScore = JsNum.nan ∧
    (handleSubmitTest [] ans u d subj date outcome).user.lastScores.head? = some JsNum.nan ∧
    (handleSubmitTest [] ans u d subj date outcome).persisted =
      some (handleSubmitTest [] ans u d subj date outcome).user := by
  have hpct : percentage [] ans = JsNum.nan := rfl
  have huser : (handleSubmitTest [] ans u d subj date outcome).user =
      updateStats u JsNum.nan 0 [] d subj date := by
    rw [← hpct]; rfl
  refine ⟨hpct, by rw [hpct]; rfl, ?_, ?_, ?_, ?_, ?_, ?_, ?_, rfl⟩
  · rw [huser]; simp [updateStats, jsEq_nan_left]
  · rw [huser]; simp [updateStats, jsEq_nan_left]
  · rw [huser]; simp [updateStats, jsEq_nan_left]
  · rw [huser]; exact updateStats_totalTests u JsNum.nan 0 [] d subj date
  · rw [huser, updateStats_averageScore]
    simp [avgStep, jsAdd_nan_right, jsDiv, jsRound]
  · rw [huser, updateStats_highestScore]
    exact jsMax_nan_right _
  · rw [huser, updateStats_lastScores]
    simp
